import Mathlib

/-!
Verification development for the DocuMind ML service (`ml-service/app/`).

The Python source is shallowly embedded in Lean:
* Python strings are Lean `String`s; the handful of Python string methods the
  code uses (`str.split()`, `str.strip()`, slicing) are modelled by structural
  char-list functions so that the kernel can evaluate them on concrete inputs.
* Python list slicing `l[a:b]` (with clamping, and negative-index resolution)
  is modelled over `Int` indices, because the chunker advances its cursor by a
  possibly negative Python `int` stride.
* Python floats (similarity scores) are modelled as exact rationals `ℚ`; the
  relevance threshold `0.3` is the exact rational `mkRat 3 10`.
* The unbounded `while` loop of the chunker is modelled with explicit fuel:
  `none` means the loop has not finished within the given fuel bound.  A loop
  that returns `none` for every fuel bound never terminates.
* External collaborators (HTTP download, PDF extraction, the embedding model,
  the Pinecone index, the Groq LLM call, `os.remove`) are parameters of type
  `Except String α`: `Except.error e` models the call raising an exception
  whose `str(e)` is `e`.
-/

namespace DocuMind

/-! ## Python string primitives -/

/-- Python `str.split()` worker: walk the characters, accumulating the current
word in `acc` (reversed); whitespace closes the current word, and empty words
are never emitted.  Mirrors Python `text.split()` (split on whitespace runs,
dropping empty pieces). -/
def pySplitAux : List Char → List Char → List String
  | [], acc => if acc.isEmpty then [] else [String.mk acc.reverse]
  | c :: cs, acc =>
    if c.isWhitespace then
      if acc.isEmpty then pySplitAux cs [] else String.mk acc.reverse :: pySplitAux cs []
    else
      pySplitAux cs (c :: acc)

/-- Python `text.split()` — whitespace-delimited tokens, no empty tokens. -/
def pySplit (s : String) : List String := pySplitAux s.data []

/-- Python `str.strip()` — remove leading and trailing whitespace. -/
def pyStrip (s : String) : String :=
  String.mk (((s.data.dropWhile Char.isWhitespace).reverse.dropWhile Char.isWhitespace).reverse)

/-- Python slice-index resolution: a negative index counts from the end and is
clamped below by 0; a non-negative index is clamped above by the length. -/
def pySliceIdx (n : Nat) (a : Int) : Nat :=
  if a < 0 then ((n : Int) + a).toNat else min a.toNat n

/-- Python list slicing `l[a:b]`. -/
def pySlice (l : List String) (a b : Int) : List String :=
  (l.take (pySliceIdx l.length b)).drop (pySliceIdx l.length a)

/-! ## `app/chunker.py` -/

/-- The `while i < len(tokens)` loop of `chunk_text`, with explicit fuel.
Each iteration appends `" ".join(tokens[i:i + chunk_size])` and advances `i`
by the Python `int` `chunk_size - chunk_overlap` (which may be negative, hence
the `Int` cursor).  `none` means the loop did not finish within `fuel`
iterations. -/
def chunkLoop (tokens : List String) (size overlap : Int) : Nat → Int → Option (List String)
  | 0, _ => none
  | fuel + 1, i =>
    if i < (tokens.length : Int) then
      match chunkLoop tokens size overlap fuel (i + (size - overlap)) with
      | some rest => some (String.intercalate " " (pySlice tokens i (i + size)) :: rest)
      | none => none
    else
      some []

/-- `chunk_text(text, chunk_size, chunk_overlap)` from `app/chunker.py`.
Returns `some chunks` when the loop terminates; the fuel `tokens.length + 1`
is sufficient whenever `chunk_overlap < chunk_size` (proved below), and when
`chunk_size ≤ chunk_overlap` the loop never terminates for any fuel (also
proved below), so `none` faithfully marks divergence. -/
def chunk_text (text : String) (chunk_size chunk_overlap : Nat) : Option (List String) :=
  if text = "" then some []
  else if (pySplit text).length = 0 then some []
  else chunkLoop (pySplit text) chunk_size chunk_overlap ((pySplit text).length + 1) 0

/-- Configured chunk size (`CHUNK_SIZE` default in `app/config.py`). -/
def CHUNK_SIZE : Nat := 500

/-- Configured chunk overlap (`CHUNK_OVERLAP` default in `app/config.py`). -/
def CHUNK_OVERLAP : Nat := 50

/-! ## Chunker lemmas -/

theorem pySlice_natCast (l : List String) (a b : Nat) :
    pySlice l (a : Int) (b : Int) = (l.drop a).take (b - a) := by
  unfold pySlice pySliceIdx
  have ha : ¬ ((a : Int) < 0) := by omega
  have hb : ¬ ((b : Int) < 0) := by omega
  rw [if_neg ha, if_neg hb, Int.toNat_natCast, Int.toNat_natCast]
  rcases le_or_lt a l.length with h | h
  · rw [min_eq_left h]
    have htake : l.take (min b l.length) = l.take b := by
      rcases le_or_lt b l.length with hbl | hbl
      · rw [min_eq_left hbl]
      · rw [min_eq_right (le_of_lt hbl), List.take_length,
          List.take_of_length_le (le_of_lt hbl)]
    rw [htake, List.drop_take]
  · rw [min_eq_right (le_of_lt h)]
    have h1 : (l.take (min b l.length)).length ≤ l.length := by
      rw [List.length_take]; omega
    rw [List.drop_eq_nil_of_le h1, List.drop_eq_nil_of_le (le_of_lt h), List.take_nil]

theorem ceil_div_step (m d : Nat) (hd : 0 < d) (hm : 0 < m) :
    (m + d - 1) / d = (m - d + d - 1) / d + 1 := by
  rcases le_or_lt m d with h | h
  · have h1 : m - d = 0 := Nat.sub_eq_zero_of_le h
    rw [h1]
    have h2 : (0 + d - 1) / d = 0 := Nat.div_eq_of_lt (by omega)
    rw [h2]
    have h3 : 1 * d ≤ m + d - 1 := by omega
    have h4 : m + d - 1 < (1 + 1) * d := by omega
    rw [Nat.div_eq_of_lt_le h3 h4]
  · have harg : m - d + d - 1 + d = m + d - 1 := by omega
    rw [← harg, Nat.add_div_right _ hd]

theorem chunkLoop_terminating (tokens : List String) (S O : Nat) (hSO : O < S) :
    ∀ (fuel i : Nat), tokens.length - i < fuel →
      chunkLoop tokens (S : Int) (O : Int) fuel (i : Int)
        = some ((List.range ((tokens.length - i + (S - O) - 1) / (S - O))).map
            (fun k => String.intercalate " " ((tokens.drop (i + k * (S - O))).take S))) := by
  intro fuel
  induction fuel with
  | zero => intro i h; omega
  | succ f ih =>
    intro i hfuel
    by_cases hi : i < tokens.length
    · have hcast : (i : Int) + ((S : Int) - (O : Int)) = ((i + (S - O) : Nat) : Int) := by
        push_cast [Nat.cast_sub (le_of_lt hSO)]; ring
      have hrec := ih (i + (S - O)) (by omega)
      have hslice : pySlice tokens (i : Int) ((i : Int) + (S : Int)) = (tokens.drop i).take S := by
        have hs : (i : Int) + (S : Int) = ((i + S : Nat) : Int) := by push_cast; ring
        rw [hs, pySlice_natCast]
        congr 1
        omega
      have hcount : (tokens.length - i + (S - O) - 1) / (S - O)
          = (tokens.length - (i + (S - O)) + (S - O) - 1) / (S - O) + 1 := by
        have hstep := ceil_div_step (tokens.length - i) (S - O) (by omega) (by omega)
        have harg : tokens.length - i - (S - O) = tokens.length - (i + (S - O)) := by omega
        rw [hstep, harg]
      simp only [chunkLoop]
      rw [if_pos (by exact_mod_cast hi), hcast, hrec, hslice, hcount,
        List.range_succ_eq_map, List.map_cons, List.map_map]
      simp only [Option.some.injEq, List.cons.injEq]
      refine ⟨by norm_num, ?_⟩
      refine List.map_congr_left ?_
      intro a _
      simp only [Function.comp_apply]
      congr 3
      rw [Nat.succ_eq_add_one]
      ring
    · simp only [chunkLoop]
      rw [if_neg (by exact_mod_cast hi)]
      have h0 : tokens.length - i = 0 := by omega
      rw [h0, Nat.zero_add, Nat.div_eq_of_lt (by omega), List.range_zero, List.map_nil]

theorem chunk_text_characterization (text : String) (S O : Nat) (hSO : O < S) :
    chunk_text text S O
      = some ((List.range (((pySplit text).length + (S - O) - 1) / (S - O))).map
          (fun k => String.intercalate " " (((pySplit text).drop (k * (S - O))).take S))) := by
  unfold chunk_text
  by_cases ht : text = ""
  · subst ht
    have h0 : pySplit "" = [] := rfl
    rw [if_pos rfl, h0]
    simp only [List.length_nil, Nat.zero_add]
    rw [Nat.div_eq_of_lt (by omega), List.range_zero, List.map_nil]
  · rw [if_neg ht]
    by_cases hN : (pySplit text).length = 0
    · rw [if_pos hN, hN]
      simp only [Nat.zero_add]
      rw [Nat.div_eq_of_lt (by omega), List.range_zero, List.map_nil]
    · rw [if_neg hN]
      have h := chunkLoop_terminating (pySplit text) S O hSO ((pySplit text).length + 1) 0
        (by omega)
      simpa using h

theorem chunkLoop_nonpos_stride (tokens : List String) (S O : Nat) (hSO : S ≤ O) :
    ∀ (fuel : Nat) (i : Int), i < (tokens.length : Int) →
      chunkLoop tokens (S : Int) (O : Int) fuel i = none := by
  intro fuel
  induction fuel with
  | zero => intro i _; rfl
  | succ f ih =>
    intro i hi
    have hstep : (S : Int) - (O : Int) ≤ 0 := by
      have h1 : (S : Int) ≤ (O : Int) := by exact_mod_cast hSO
      omega
    have hi' : i + ((S : Int) - (O : Int)) < (tokens.length : Int) := by omega
    simp only [chunkLoop]
    rw [if_pos hi, ih _ hi']

theorem mk_ne_empty (l : List Char) (h : l ≠ []) : String.mk l ≠ "" := by
  intro he
  exact h (congrArg String.data he)

theorem pySplitAux_ne_empty (cs : List Char) :
    ∀ (acc : List Char), ∀ t ∈ pySplitAux cs acc, t ≠ "" := by
  induction cs with
  | nil =>
    intro acc t ht
    simp only [pySplitAux] at ht
    by_cases ha : acc.isEmpty
    · rw [if_pos ha] at ht
      simp at ht
    · rw [if_neg ha] at ht
      rw [List.mem_singleton] at ht
      subst ht
      refine mk_ne_empty _ ?_
      rw [ne_eq, List.reverse_eq_nil_iff]
      simpa [List.isEmpty_iff] using ha
  | cons c cs ih =>
    intro acc t ht
    simp only [pySplitAux] at ht
    by_cases hw : c.isWhitespace
    · rw [if_pos hw] at ht
      by_cases ha : acc.isEmpty
      · rw [if_pos ha] at ht
        exact ih [] t ht
      · rw [if_neg ha] at ht
        rcases List.mem_cons.mp ht with h | h
        · subst h
          refine mk_ne_empty _ ?_
          rw [ne_eq, List.reverse_eq_nil_iff]
          simpa [List.isEmpty_iff] using ha
        · exact ih [] t h
    · rw [if_neg hw] at ht
      exact ih (c :: acc) t ht

theorem pySplit_ne_empty (s : String) : ∀ t ∈ pySplit s, t ≠ "" :=
  pySplitAux_ne_empty s.data []

theorem intercalate_go_length (s : String) :
    ∀ (as : List String) (acc : String),
      acc.length ≤ (String.intercalate.go acc s as).length := by
  intro as
  induction as with
  | nil => intro acc; simp [String.intercalate.go]
  | cons a as ih =>
    intro acc
    simp only [String.intercalate.go]
    calc acc.length ≤ (acc ++ s ++ a).length := by
          rw [String.length_append, String.length_append]; omega
      _ ≤ (String.intercalate.go (acc ++ s ++ a) s as).length := ih _

theorem intercalate_ne_empty (l : List String) (hne : l ≠ [])
    (helem : ∀ t ∈ l, t ≠ "") : String.intercalate " " l ≠ "" := by
  match l, hne with
  | a :: as, _ =>
    have ha : a ≠ "" := helem a (List.mem_cons_self a as)
    have h1 : 0 < a.length := by
      cases a with
      | mk data =>
        cases data with
        | nil => exact absurd rfl ha
        | cons c cs => exact Nat.succ_pos _
    have h2 : a.length ≤ (String.intercalate " " (a :: as)).length :=
      intercalate_go_length " " as a
    intro he
    rw [he] at h2
    have h3 : ("" : String).length = 0 := rfl
    omega

/-! ## Claims about the chunker -/

/-- C1 (amended): for a text whose whitespace split yields `N > 0` tokens and
`S > O ≥ 0`, `chunk_text` yields exactly the windows `tokens[k*(S−O) : k*(S−O)+S]`
for `k = 0, 1, …` until the start reaches or exceeds `N`: the first window
starts at token 0, window `i+1` starts exactly `S−O` tokens after window `i`,
and a window starting at `p` holds `min(S, N−p)` tokens — so any window whose
start is within `S` of the end (not only the last) may be shorter than `S`.
In particular, `N = 1200`, `S = 500`, `O = 50` gives exactly the three windows
`tokens[0:500]`, `tokens[450:950]`, `tokens[900:1200]`. -/
theorem chunk_text_sliding_windows (text : String) (S O : Nat)
    (hSO : O < S) (hN : 0 < (pySplit text).length) :
    chunk_text text S O
      = some ((List.range (((pySplit text).length + (S - O) - 1) / (S - O))).map
          (fun k => String.intercalate " " (((pySplit text).drop (k * (S - O))).take S)))
    ∧ ((pySplit text).length = 1200 → S = 500 → O = 50 →
        chunk_text text S O
          = some [String.intercalate " " ((pySplit text).take 500),
              String.intercalate " " (((pySplit text).drop 450).take 500),
              String.intercalate " " (((pySplit text).drop 900).take 300)]) := by
  refine ⟨chunk_text_characterization text S O hSO, ?_⟩
  intro h12 hS hO
  subst hS
  subst hO
  rw [chunk_text_characterization text 500 50 (by omega)]
  have hc : ((pySplit text).length + (500 - 50) - 1) / (500 - 50) = 3 := by
    rw [h12]
  have h3 : ((pySplit text).drop 900).take 500 = ((pySplit text).drop 900).take 300 := by
    rw [List.take_of_length_le (by rw [List.length_drop, h12]; omega),
      List.take_of_length_le (by rw [List.length_drop, h12])]
  rw [hc, show List.range 3 = [0, 1, 2] from rfl]
  simp only [List.map_cons, List.map_nil, Nat.zero_mul, Nat.one_mul, List.drop_zero]
  rw [show 2 * (500 - 50) = 900 from rfl, h3]

/-- C1 witness: concrete instance of `chunk_text_sliding_windows` at the text
`"a b c"` with `S = 2`, `O = 1`, hypotheses discharged by evaluation. -/
theorem chunk_text_sliding_windows_witness :
    (1 < 2 ∧ 0 < (pySplit "a b c").length)
    ∧ (chunk_text "a b c" 2 1
        = some ((List.range (((pySplit "a b c").length + (2 - 1) - 1) / (2 - 1))).map
            (fun k => String.intercalate " " (((pySplit "a b c").drop (k * (2 - 1))).take 2)))
      ∧ ((pySplit "a b c").length = 1200 → 2 = 500 → 1 = 50 →
          chunk_text "a b c" 2 1
            = some [String.intercalate " " ((pySplit "a b c").take 500),
                String.intercalate " " (((pySplit "a b c").drop 450).take 500),
                String.intercalate " " (((pySplit "a b c").drop 900).take 300)])) :=
  ⟨⟨by decide, by decide⟩, chunk_text_sliding_windows "a b c" 2 1 (by decide) (by decide)⟩

/-- C1 counterexample: with 10 tokens, `S = 8`, `O = 6`, the code produces the
five windows below; the third window `"e f g h i j"` has 6 ≠ 8 tokens although
it is not the last window, refuting "every window except possibly the last
contains exactly S tokens". -/
theorem chunk_text_nonfinal_short_window :
    chunk_text "a b c d e f g h i j" 8 6
      = some ["a b c d e f g h", "c d e f g h i j", "e f g h i j", "g h i j", "i j"]
    ∧ (pySplit "e f g h i j").length = 6
    ∧ ¬ ((6 : Nat) = 8) := by decide

/-- C2 (amended): for every text with `N` whitespace tokens and `S > O ≥ 0`,
the number of chunks equals `ceil(N / (S − O))` — not
`ceil(max(N − O, 0) / (S − O))` as claimed. -/
theorem chunk_text_count (text : String) (S O : Nat) (hSO : O < S) :
    (chunk_text text S O).map List.length
      = some (((pySplit text).length + (S - O) - 1) / (S - O)) := by
  rw [chunk_text_characterization text S O hSO]
  simp

/-- C2 witness: concrete instance of `chunk_text_count` at `"a b c"`, `S = 2`,
`O = 1`. -/
theorem chunk_text_count_witness :
    1 < 2
    ∧ (chunk_text "a b c" 2 1).map List.length
        = some (((pySplit "a b c").length + (2 - 1) - 1) / (2 - 1)) :=
  ⟨by decide, chunk_text_count "a b c" 2 1 (by decide)⟩

/-- C2 counterexample: for the single-token text `"a"` with `S = 2`, `O = 1`,
the claimed formula `ceil(max(N − O, 0) / (S − O))` evaluates to 0 chunks, but
`chunk_text` returns the single chunk `["a"]`. -/
theorem chunk_text_count_formula_cex :
    chunk_text "a" 2 1 = some ["a"]
    ∧ ((pySplit "a").length - 1 + (2 - 1) - 1) / (2 - 1) = 0
    ∧ ¬ ((1 : Nat) = 0) := by decide

/-- C3: the code has no guard for `chunk_overlap ≥ chunk_size`: on any text
with at least one token, the `while` loop of `chunk_text` runs forever — for
every fuel bound the loop is unfinished (`none`), for the loop entered at
cursor 0 as the code does — instead of failing fast with an `InvalidParameter`
error as the claim requires. -/
theorem chunk_text_overlap_ge_size_diverges (text : String) (S O fuel : Nat)
    (hSO : S ≤ O) (hne : pySplit text ≠ []) :
    chunkLoop (pySplit text) (S : Int) (O : Int) fuel 0 = none
    ∧ chunk_text text S O = none := by
  have hlen : 0 < (pySplit text).length := List.length_pos.mpr hne
  have hloop : ∀ (f : Nat), chunkLoop (pySplit text) (S : Int) (O : Int) f 0 = none :=
    fun f => chunkLoop_nonpos_stride (pySplit text) S O hSO f 0 (by exact_mod_cast hlen)
  refine ⟨hloop fuel, ?_⟩
  unfold chunk_text
  have ht : text ≠ "" := by
    intro h
    subst h
    exact hne rfl
  rw [if_neg ht, if_neg (by omega), hloop _]

/-- C3 witness: concrete instance at `"a b"` with `S = O = 1` and fuel 37. -/
theorem chunk_text_overlap_ge_size_diverges_witness :
    (1 ≤ 1 ∧ pySplit "a b" ≠ [])
    ∧ (chunkLoop (pySplit "a b") ((1 : Nat) : Int) ((1 : Nat) : Int) 37 0 = none
       ∧ chunk_text "a b" 1 1 = none) :=
  ⟨⟨by decide, by decide⟩,
    chunk_text_overlap_ge_size_diverges "a b" 1 1 37 (by decide) (by decide)⟩

/-- C9: whenever `O < S`, every chunk string produced by `chunk_text` is the
space-join of a non-empty window of non-empty tokens; in particular no chunk
is the empty string. -/
theorem chunk_text_chunks_nonempty (text : String) (S O : Nat) (l : List String)
    (hSO : O < S) (hl : chunk_text text S O = some l) :
    ∀ c ∈ l, c ≠ ""
      ∧ ∃ w : List String, w ≠ [] ∧ (∀ t ∈ w, t ≠ "") ∧ c = String.intercalate " " w := by
  rw [chunk_text_characterization text S O hSO] at hl
  have hl' := Option.some.inj hl
  intro c hc
  rw [← hl', List.mem_map] at hc
  obtain ⟨k, hk, rfl⟩ := hc
  rw [List.mem_range] at hk
  have hd : 0 < S - O := by omega
  have hkd : k * (S - O) < (pySplit text).length := by
    have h2 := (Nat.le_div_iff_mul_le hd).mp hk
    rw [Nat.succ_mul] at h2
    omega
  have hwlen : 0 < (((pySplit text).drop (k * (S - O))).take S).length := by
    rw [List.length_take, List.length_drop, lt_min_iff]
    exact ⟨by omega, by omega⟩
  have hwne : ((pySplit text).drop (k * (S - O))).take S ≠ [] := List.length_pos.mp hwlen
  have helem : ∀ t ∈ ((pySplit text).drop (k * (S - O))).take S, t ≠ "" := by
    intro t ht
    exact pySplit_ne_empty text t (List.mem_of_mem_drop (List.mem_of_mem_take ht))
  exact ⟨intercalate_ne_empty _ hwne helem, _, hwne, helem, rfl⟩

/-- C9 witness: concrete instance at `"a"` with `S = 1`, `O = 0`,
`l = ["a"]`. -/
theorem chunk_text_chunks_nonempty_witness :
    (0 < 1 ∧ chunk_text "a" 1 0 = some ["a"])
    ∧ (∀ c ∈ (["a"] : List String), c ≠ ""
        ∧ ∃ w : List String, w ≠ [] ∧ (∀ t ∈ w, t ≠ "") ∧ c = String.intercalate " " w) :=
  ⟨⟨by decide, by decide⟩,
    chunk_text_chunks_nonempty "a" 1 0 ["a"] (by decide) (by decide)⟩

/-! ## `app/rag_engine.py` — data model

Pinecone match metadata is a Python dict read with `.get` and defaults, so
every field is optional; a missing `metadata` key behaves exactly like a
metadata value with every field absent.  Similarity scores are Python floats,
modelled as exact rationals. -/

structure Meta where
  fileId : Option String
  chunkId : Option Nat
  text : Option String
  source : Option String
deriving DecidableEq

structure Match where
  metadata : Meta
  score : Option ℚ
deriving DecidableEq

structure SourceAttr where
  fileId : Option String
  chunkId : Option Nat
  score : ℚ
  source : String
deriving DecidableEq

/-- Response payload of `process_answer`.  Absent dict keys are `none`. -/
structure AnswerPayload where
  answer : String
  sources : List SourceAttr
  chunks_used : Option Nat
  error : Option String
deriving DecidableEq

/-- Python `round(score, 4)` — for `q = n/d` this computes
`⌊q·10⁴ + 1/2⌋ / 10⁴` with integer arithmetic (floor of `(2n·10⁴ + d)/(2d)`).
Python rounds exact half-way ties to even instead; no claim depends on a tie
at the fifth decimal. -/
def round4 (q : ℚ) : ℚ := mkRat ((q.num * 20000 + (q.den : Int)).fdiv (2 * (q.den : Int))) 10000

/-- The relevance filter `score > 0.3` (`m.get("score", 0)` on a missing
score), with `0.3` as the exact rational `3/10`. -/
def relevant (m : Match) : Bool := decide (mkRat 3 10 < m.score.getD 0)

/-- `meta.get("text", "")` for a surviving match. -/
def contextOf (m : Match) : String := m.metadata.text.getD ""

/-- The source-attribution entry built for a surviving match. -/
def sourceOf (m : Match) : SourceAttr :=
  { fileId := m.metadata.fileId, chunkId := m.metadata.chunkId,
    score := round4 (m.score.getD 0), source := m.metadata.source.getD "Unknown" }

/-! ## `generate_llm_answer` and `format_fallback_answer`

The Groq chat-completion call is an external collaborator: it is a parameter
`llm` that receives the assembled prompt and either returns the generated
text or raises (`Except.error`).  The fixed sampling parameters and model id
only affect that external call. -/

/-- The grounded prompt assembled by `generate_llm_answer`. -/
def buildPrompt (context query : String) : String :=
  "You are a helpful AI assistant that answers questions based on provided documents.\n\nCONTEXT FROM DOCUMENTS:\n"
    ++ context
    ++ "\n\nUSER QUESTION: " ++ query
    ++ "\n\nINSTRUCTIONS:\n1. Read the context carefully and provide a clear, well-structured answer\n2. Use ONLY information from the context provided\n3. Format your response with:\n   - A brief direct answer first\n   - Key points in bullet format if applicable\n   - Clear explanations\n4. If the context doesn\x27t contain enough information, say so clearly\n5. Do NOT make up or hallucinate any information\n6. Be concise but comprehensive\n\nPlease provide a well-formatted answer:"

/-- `format_fallback_answer(context, query)`: the deterministic extractive
fallback — the context truncated to 500 characters (with an ellipsis marker
exactly when it was longer than 500) wrapped in the templated message. -/
def format_fallback_answer (context query : String) : String :=
  "**Answer to: " ++ query ++ "**\n\nBased on the retrieved documents:\n\n"
    ++ (if 500 < context.length then String.mk (context.data.take 500) ++ "..." else context)
    ++ "\n\n*Note: This is a direct extract from your documents. For a more refined answer, please check the system logs.*"

/-- `generate_llm_answer(context, query)`: empty/blank context short-circuits
to a no-information message; otherwise the LLM is called once and the
fallback is used when the call raises or the reply is empty or has stripped
length under 10. -/
def generate_llm_answer (llm : String → Except String String)
    (context query : String) : String :=
  if context = "" ∨ pyStrip context = "" then
    "I couldn\x27t find any relevant information in the documents to answer your question."
  else
    match llm (buildPrompt context query) with
    | Except.error _ => format_fallback_answer context query
    | Except.ok answer =>
      if answer = "" ∨ (pyStrip answer).length < 10 then
        format_fallback_answer context query
      else answer

/-! ## `process_answer`

Embedding the query and querying Pinecone are external calls: their combined
outcome is the parameter `search` (`Except.error e` models either call
raising `e`, `Except.ok matches` the retrieved match list).  The single
`for`-loop that conditionally appends to `contexts` and `sources` in lockstep
is rendered as `filter` + `map`. -/

def process_answer (search : Except String (List Match))
    (llm : String → Except String String) (query : String) : AnswerPayload :=
  match search with
  | Except.error e =>
      { answer := "An error occurred while processing your question: " ++ e,
        sources := [], chunks_used := none, error := some e }
  | Except.ok ms =>
    if ms = [] then
      { answer := "I couldn\x27t find any relevant information in your documents to answer this question. Please make sure documents are uploaded and indexed.",
        sources := [], chunks_used := none, error := none }
    else
      if (ms.filter relevant).map contextOf = [] then
        { answer := "The retrieved documents don\x27t seem relevant enough to answer your question confidently.",
          sources := (ms.filter relevant).map sourceOf,
          chunks_used := none, error := none }
      else
        { answer := generate_llm_answer llm
            (String.intercalate "\n\n---\n\n" (((ms.filter relevant).map contextOf).take 3))
            query,
          sources := (ms.filter relevant).map sourceOf,
          chunks_used := some ((ms.filter relevant).map contextOf).length,
          error := none }

/-! ## `process_ingest` and the notifier

`notify_node_update` never raises (it swallows its own errors), so each call
is recorded as a `Notification` value; the second component of
`process_ingest`'s result is the list of notification calls made, in order.
The source passes failure messages as the third *positional* argument of
`notify_node_update`, which is the `pages` parameter, so failure messages
land in `pages` here exactly as in the code. -/

structure Notification where
  fileId : String
  status : String
  pages : Option String
  errorMessage : Option String
deriving DecidableEq

def notify_node_update (file_id status : String) (pages error_message : Option String) :
    Notification :=
  { fileId := file_id, status := status, pages := pages, errorMessage := error_message }

structure IngestResult where
  ok : Bool
  indexed_chunks : Option Nat
  reason : Option String
deriving DecidableEq

/-- One `(id, vector, metadata)` triple destined for the Pinecone upsert;
`vec.tolist()` is the identity here since vectors are already lists. -/
structure BatchItem where
  id : String
  vector : List ℚ
  metadata : Meta
deriving DecidableEq

/-- The `for i, vec in enumerate(vectors)` batch-building loop; `chunks[i]`
raises `IndexError("list index out of range")` when the embedder returned
more vectors than there were chunks. -/
def buildBatch (fileId originalName : String) (chunks : List String)
    (vectors : List (List ℚ)) : Except String (List BatchItem) :=
  vectors.enum.mapM (fun p =>
    match chunks.get? p.1 with
    | some t =>
        Except.ok { id := fileId ++ "_" ++ toString p.1, vector := p.2,
                    metadata := { fileId := some fileId, chunkId := some p.1,
                                  text := some t, source := some originalName } }
    | none => Except.error "list index out of range")

/-- `for i in range(0, len(batch), 100)`: the slices `batch[i:i+100]`. -/
def chunkBatches (batch : List BatchItem) : List (List BatchItem) :=
  (List.range ((batch.length + 100 - 1) / 100)).map (fun k => (batch.drop (k * 100)).take 100)

/-- Sequential upsert of the 100-element slices; the first failing network
call aborts the loop, as the raised exception would. -/
def upsertBatches (upsertCall : List BatchItem → Except String Unit)
    (batch : List BatchItem) : Except String Unit :=
  (chunkBatches batch).foldlM (fun _ b => upsertCall b) ()

/-- `process_ingest(fileId, fileUrl, originalName)`.  The external steps —
`download_file`, `extract_pdf_text`, `embed_documents`, each `index.upsert`
call, `os.remove` — are parameters returning `Except`; `Except.error e`
models the call raising an exception with `str(e) = e`.  The `try/except`
boundary converts any raised `e` into a failure notification plus the
structured `{ok: False, reason: str(e)}` response.  The chunker is called
with the configured `CHUNK_SIZE`/`CHUNK_OVERLAP` (500/50, a terminating
configuration — the `none` branch below is proved unreachable). -/
def process_ingest (downloadFile : String → Except String String)
    (extract_pdf_text : String → Except String String)
    (embed_documents : List String → Except String (List (List ℚ)))
    (upsertCall : List BatchItem → Except String Unit)
    (osRemove : String → Except String Unit)
    (fileId fileUrl originalName : String) : IngestResult × List Notification :=
  match downloadFile fileUrl with
  | Except.error e =>
      (⟨false, none, some e⟩, [notify_node_update fileId "failed" (some e) none])
  | Except.ok local_path =>
    match extract_pdf_text local_path with
    | Except.error e =>
        (⟨false, none, some e⟩, [notify_node_update fileId "failed" (some e) none])
    | Except.ok text =>
      if pyStrip text = "" then
        (⟨false, none, some "Empty text"⟩,
         [notify_node_update fileId "failed" (some "Empty text extracted") none])
      else
        match chunk_text text CHUNK_SIZE CHUNK_OVERLAP with
        | none => (⟨false, none, some "chunker diverged"⟩, [])
        | some chunks =>
          match embed_documents chunks with
          | Except.error e =>
              (⟨false, none, some e⟩, [notify_node_update fileId "failed" (some e) none])
          | Except.ok vectors =>
            match buildBatch fileId originalName chunks vectors with
            | Except.error e =>
                (⟨false, none, some e⟩, [notify_node_update fileId "failed" (some e) none])
            | Except.ok batch =>
              match upsertBatches upsertCall batch with
              | Except.error e =>
                  (⟨false, none, some e⟩, [notify_node_update fileId "failed" (some e) none])
              | Except.ok _ =>
                match osRemove local_path with
                | Except.error e =>
                    (⟨false, none, some e⟩,
                     [notify_node_update fileId "indexed" (some (toString chunks.length)) none,
                      notify_node_update fileId "failed" (some e) none])
                | Except.ok _ =>
                    (⟨true, some chunks.length, none⟩,
                     [notify_node_update fileId "indexed" (some (toString chunks.length)) none])

/-! ## Concrete fixtures used by witnesses and counterexamples -/

/-- A concrete search match with the given chunk id, text and score. -/
def mkMatch (c : Nat) (t : String) (sc : ℚ) : Match :=
  { metadata := { fileId := some "f", chunkId := some c, text := some t, source := some "doc" },
    score := some sc }

/-- A concrete LLM collaborator whose call always raises. -/
def llmDown : String → Except String String := fun _ => Except.error "down"

/-! ## Claims about `process_answer` and `generate_llm_answer` -/

/-- C4: no match with score ≤ 0.3 ever contributes to the LLM context or to
the returned sources: every returned source comes from a match scoring
strictly above 3/10, and the answer is either the LLM output over a context
joined from texts of such matches only, or one of the two canned messages.
When the search returns zero matches the result is exactly the specific
"no relevant information" payload with empty sources and no error field. -/
theorem process_answer_relevance_filter (ms : List Match)
    (llm : String → Except String String) (query : String) :
    (ms = [] →
        process_answer (Except.ok ms) llm query
          = { answer := "I couldn\x27t find any relevant information in your documents to answer this question. Please make sure documents are uploaded and indexed.",
              sources := [], chunks_used := none, error := none })
    ∧ (∀ s ∈ (process_answer (Except.ok ms) llm query).sources,
        ∃ m ∈ ms, mkRat 3 10 < m.score.getD 0 ∧ s = sourceOf m)
    ∧ (∃ ctxs : List String,
        (∀ t ∈ ctxs, ∃ m ∈ ms, mkRat 3 10 < m.score.getD 0 ∧ t = contextOf m)
        ∧ ((process_answer (Except.ok ms) llm query).answer
            = generate_llm_answer llm (String.intercalate "\n\n---\n\n" ctxs) query
          ∨ (process_answer (Except.ok ms) llm query).answer
            = "I couldn\x27t find any relevant information in your documents to answer this question. Please make sure documents are uploaded and indexed."
          ∨ (process_answer (Except.ok ms) llm query).answer
            = "The retrieved documents don\x27t seem relevant enough to answer your question confidently."))
    ∧ (process_answer (Except.ok ms) llm query).error = none := by
  by_cases hms : ms = []
  · subst hms
    refine ⟨fun _ => rfl, ?_, ⟨[], by simp, Or.inr (Or.inl rfl)⟩, rfl⟩
    intro s hs
    simp [process_answer] at hs
  · simp only [process_answer, if_neg hms]
    by_cases hctx : (ms.filter relevant).map contextOf = []
    · rw [if_pos hctx]
      have hkept : ms.filter relevant = [] := List.map_eq_nil_iff.mp hctx
      refine ⟨fun h => absurd h hms, ?_, ⟨[], by simp, Or.inr (Or.inr rfl)⟩, rfl⟩
      intro s hs
      rw [hkept] at hs
      simp at hs
    · rw [if_neg hctx]
      refine ⟨fun h => absurd h hms, ?_, ⟨((ms.filter relevant).map contextOf).take 3, ?_, Or.inl rfl⟩, rfl⟩
      · intro s hs
        rw [List.mem_map] at hs
        obtain ⟨m, hm, rfl⟩ := hs
        rw [List.mem_filter] at hm
        exact ⟨m, hm.1, by simpa [relevant] using hm.2, rfl⟩
      · intro t ht
        have ht' := List.mem_of_mem_take ht
        rw [List.mem_map] at ht'
        obtain ⟨m, hm, rfl⟩ := ht'
        rw [List.mem_filter] at hm
        exact ⟨m, hm.1, by simpa [relevant] using hm.2, rfl⟩

/-- C5 (amended): when at least one match survives the 0.3 filter, the
response payload carries exactly the surviving matches as sources, at most
the first 3 surviving contexts are joined into the LLM context, and
`chunks_used` equals the number of *surviving matches* — which exceeds the
number of contexts actually passed to the LLM whenever more than 3 survive
(with exactly three of four matches above 0.3, sources are exactly those
three and `chunks_used == 3`). -/
theorem process_answer_chunks_used (ms : List Match)
    (llm : String → Except String String) (query : String)
    (hk : ms.filter relevant ≠ []) :
    process_answer (Except.ok ms) llm query
      = { answer := generate_llm_answer llm
            (String.intercalate "\n\n---\n\n" (((ms.filter relevant).map contextOf).take 3))
            query,
          sources := (ms.filter relevant).map sourceOf,
          chunks_used := some (ms.filter relevant).length,
          error := none }
    ∧ (((ms.filter relevant).map contextOf).take 3).length ≤ 3 := by
  have hms : ms ≠ [] := by
    intro h
    subst h
    simp at hk
  have hctx : (ms.filter relevant).map contextOf ≠ [] := by
    simpa [List.map_eq_nil_iff] using hk
  constructor
  · simp only [process_answer]
    rw [if_neg hms, if_neg hctx, List.length_map]
  · rw [List.length_take]
    exact min_le_left _ _

set_option maxRecDepth 8000 in
/-- C5 witness: concrete instance with a single surviving match. -/
theorem process_answer_chunks_used_witness :
    ([mkMatch 0 "hello" 1] : List Match).filter relevant ≠ []
    ∧ (process_answer (Except.ok [mkMatch 0 "hello" 1]) llmDown "q"
        = { answer := generate_llm_answer llmDown
              (String.intercalate "\n\n---\n\n"
                (((([mkMatch 0 "hello" 1] : List Match).filter relevant).map contextOf).take 3))
              "q",
            sources := (([mkMatch 0 "hello" 1] : List Match).filter relevant).map sourceOf,
            chunks_used := some (([mkMatch 0 "hello" 1] : List Match).filter relevant).length,
            error := none }
       ∧ (((([mkMatch 0 "hello" 1] : List Match).filter relevant).map contextOf).take 3).length ≤ 3) :=
  ⟨by decide, process_answer_chunks_used [mkMatch 0 "hello" 1] llmDown "q" (by decide)⟩

set_option maxRecDepth 8000 in
/-- C5 counterexample: with four matches all scoring above 0.3, only the
first 3 contexts are joined into the LLM context, yet `chunks_used` is 4 —
refuting "chunks_used equals the count of chunks used as LLM context". -/
theorem process_answer_chunks_used_cex :
    (process_answer
        (Except.ok [mkMatch 0 "t1" 1, mkMatch 1 "t2" 1, mkMatch 2 "t3" 1, mkMatch 3 "t4" 1])
        llmDown "q").chunks_used = some 4
    ∧ (process_answer
        (Except.ok [mkMatch 0 "t1" 1, mkMatch 1 "t2" 1, mkMatch 2 "t3" 1, mkMatch 3 "t4" 1])
        llmDown "q").answer
        = generate_llm_answer llmDown (String.intercalate "\n\n---\n\n" ["t1", "t2", "t3"]) "q"
    ∧ ¬ ((4 : Nat) = 3) := by decide

/-- C10: when matches exist but none scores strictly above 0.3, the returned
payload is the "not relevant enough" response and its sources field is
exactly the empty list. -/
theorem process_answer_low_scores_empty_sources (ms : List Match)
    (llm : String → Except String String) (query : String)
    (hne : ms ≠ []) (hlow : ∀ m ∈ ms, m.score.getD 0 ≤ mkRat 3 10) :
    (process_answer (Except.ok ms) llm query).sources = []
    ∧ (process_answer (Except.ok ms) llm query).answer
        = "The retrieved documents don\x27t seem relevant enough to answer your question confidently." := by
  have hkept : ms.filter relevant = [] := by
    rw [List.filter_eq_nil_iff]
    intro m hm
    simp only [relevant, decide_eq_true_eq]
    exact not_lt.mpr (hlow m hm)
  have hctx : (ms.filter relevant).map contextOf = [] := by rw [hkept]; rfl
  simp only [process_answer]
  rw [if_neg hne, if_pos hctx, hkept]
  exact ⟨rfl, rfl⟩

set_option maxRecDepth 8000 in
/-- C10 witness: one match with score 0. -/
theorem process_answer_low_scores_empty_sources_witness :
    (([mkMatch 0 "t" 0] : List Match) ≠ []
      ∧ ∀ m ∈ ([mkMatch 0 "t" 0] : List Match), m.score.getD 0 ≤ mkRat 3 10)
    ∧ ((process_answer (Except.ok [mkMatch 0 "t" 0]) llmDown "q").sources = []
       ∧ (process_answer (Except.ok [mkMatch 0 "t" 0]) llmDown "q").answer
           = "The retrieved documents don\x27t seem relevant enough to answer your question confidently.") :=
  ⟨⟨by decide, by decide⟩,
    process_answer_low_scores_empty_sources [mkMatch 0 "t" 0] llmDown "q" (by decide) (by decide)⟩

/-- C7 (amended): for every context that is non-empty and non-blank,
`generate_llm_answer` returns the fallback exactly when the LLM call raises
or the returned text is empty or its *whitespace-stripped* length is under
10 characters, and otherwise returns the LLM text; the fallback is a total
function equal to the templated message around the context truncated to 500
characters (with ellipsis marker exactly when longer than 500). -/
theorem generate_llm_answer_fallback (llm : String → Except String String)
    (context query : String) (hctx : ¬ (context = "" ∨ pyStrip context = "")) :
    generate_llm_answer llm context query
      = (match llm (buildPrompt context query) with
          | Except.error _ => format_fallback_answer context query
          | Except.ok a =>
            if a = "" ∨ (pyStrip a).length < 10 then format_fallback_answer context query
            else a)
    ∧ format_fallback_answer context query
        = "**Answer to: " ++ query ++ "**\n\nBased on the retrieved documents:\n\n"
          ++ (if 500 < context.length then String.mk (context.data.take 500) ++ "..." else context)
          ++ "\n\n*Note: This is a direct extract from your documents. For a more refined answer, please check the system logs.*" := by
  refine ⟨?_, rfl⟩
  simp only [generate_llm_answer]
  rw [if_neg hctx]

set_option maxRecDepth 8000 in
/-- C7 witness: concrete instance with a raising LLM on context
`"hello world"`. -/
theorem generate_llm_answer_fallback_witness :
    (¬ ("hello world" = "" ∨ pyStrip "hello world" = ""))
    ∧ (generate_llm_answer llmDown "hello world" "q"
        = (match llmDown (buildPrompt "hello world" "q") with
            | Except.error _ => format_fallback_answer "hello world" "q"
            | Except.ok a =>
              if a = "" ∨ (pyStrip a).length < 10 then format_fallback_answer "hello world" "q"
              else a)
       ∧ format_fallback_answer "hello world" "q"
           = "**Answer to: " ++ "q" ++ "**\n\nBased on the retrieved documents:\n\n"
             ++ (if 500 < "hello world".length then
                   String.mk ("hello world".data.take 500) ++ "..."
                 else "hello world")
             ++ "\n\n*Note: This is a direct extract from your documents. For a more refined answer, please check the system logs.*") :=
  ⟨by decide, generate_llm_answer_fallback llmDown "hello world" "q" (by decide)⟩

set_option maxRecDepth 8000 in
/-- C7 counterexample: the LLM reply `"abcdefghi     "` (14 characters, 9
after stripping) is neither empty nor shorter than 10 characters, yet the
code falls back; and with an empty context a raising LLM call yields the
no-information message, not the fallback. -/
theorem generate_llm_answer_fallback_cex :
    generate_llm_answer (fun _ => Except.ok "abcdefghi     ") "some context" "q"
      = format_fallback_answer "some context" "q"
    ∧ ¬ ("abcdefghi     " = "")
    ∧ ¬ ("abcdefghi     ".length < 10)
    ∧ ¬ (format_fallback_answer "some context" "q" = "abcdefghi     ")
    ∧ generate_llm_answer (fun _ => Except.error "x") "" "q"
      = "I couldn\x27t find any relevant information in the documents to answer your question."
    ∧ ¬ (generate_llm_answer (fun _ => Except.error "x") "" "q"
        = format_fallback_answer "" "q") := by decide

/-! ## Claims about `process_ingest` -/

theorem chunk_text_config_total (text : String) :
    ∃ l, chunk_text text CHUNK_SIZE CHUNK_OVERLAP = some l :=
  ⟨_, chunk_text_characterization text CHUNK_SIZE CHUNK_OVERLAP (by decide)⟩

theorem process_ingest_branches (downloadFile : String → Except String String)
    (extract_pdf_text : String → Except String String)
    (embed_documents : List String → Except String (List (List ℚ)))
    (upsertCall : List BatchItem → Except String Unit)
    (osRemove : String → Except String Unit)
    (fileId fileUrl originalName : String) :
    ((process_ingest downloadFile extract_pdf_text embed_documents upsertCall osRemove
        fileId fileUrl originalName).2.length = 1
      ∨ ((process_ingest downloadFile extract_pdf_text embed_documents upsertCall osRemove
            fileId fileUrl originalName).2.length = 2
          ∧ ∃ path e, downloadFile fileUrl = Except.ok path ∧ osRemove path = Except.error e))
    ∧ (((process_ingest downloadFile extract_pdf_text embed_documents upsertCall osRemove
          fileId fileUrl originalName).1.ok = true
        ∧ (process_ingest downloadFile extract_pdf_text embed_documents upsertCall osRemove
            fileId fileUrl originalName).1.indexed_chunks.isSome = true
        ∧ (process_ingest downloadFile extract_pdf_text embed_documents upsertCall osRemove
            fileId fileUrl originalName).1.reason = none)
      ∨ ((process_ingest downloadFile extract_pdf_text embed_documents upsertCall osRemove
            fileId fileUrl originalName).1.ok = false
          ∧ (process_ingest downloadFile extract_pdf_text embed_documents upsertCall osRemove
              fileId fileUrl originalName).1.reason.isSome = true)) := by
  cases hdl : downloadFile fileUrl with
  | error e => exact ⟨Or.inl (by simp [process_ingest, hdl]), Or.inr (by simp [process_ingest, hdl])⟩
  | ok path =>
    cases hex : extract_pdf_text path with
    | error e =>
        exact ⟨Or.inl (by simp [process_ingest, hdl, hex]),
          Or.inr (by simp [process_ingest, hdl, hex])⟩
    | ok text =>
      by_cases htr : pyStrip text = ""
      · exact ⟨Or.inl (by simp [process_ingest, hdl, hex, htr]),
          Or.inr (by simp [process_ingest, hdl, hex, htr])⟩
      · obtain ⟨chunks, hch⟩ := chunk_text_config_total text
        cases hem : embed_documents chunks with
        | error e =>
            exact ⟨Or.inl (by simp [process_ingest, hdl, hex, htr, hch, hem]),
              Or.inr (by simp [process_ingest, hdl, hex, htr, hch, hem])⟩
        | ok vectors =>
          cases hbb : buildBatch fileId originalName chunks vectors with
          | error e =>
              exact ⟨Or.inl (by simp [process_ingest, hdl, hex, htr, hch, hem, hbb]),
                Or.inr (by simp [process_ingest, hdl, hex, htr, hch, hem, hbb])⟩
          | ok batch =>
            cases hup : upsertBatches upsertCall batch with
            | error e =>
                exact ⟨Or.inl (by simp [process_ingest, hdl, hex, htr, hch, hem, hbb, hup]),
                  Or.inr (by simp [process_ingest, hdl, hex, htr, hch, hem, hbb, hup])⟩
            | ok u =>
              cases hrm : osRemove path with
              | error e =>
                  refine ⟨Or.inr ⟨by simp [process_ingest, hdl, hex, htr, hch, hem, hbb, hup, hrm],
                      path, e, rfl, hrm⟩,
                    Or.inr (by simp [process_ingest, hdl, hex, htr, hch, hem, hbb, hup, hrm])⟩
              | ok v =>
                  exact ⟨Or.inl (by simp [process_ingest, hdl, hex, htr, hch, hem, hbb, hup, hrm]),
                    Or.inl (by simp [process_ingest, hdl, hex, htr, hch, hem, hbb, hup, hrm])⟩

/-- The one path on which the source double-notifies: every step through the
upsert succeeded — so the "indexed" success notification was already sent —
and then `os.remove` on the downloaded temporary file raised. -/
def cleanupFailsAfterIndexed (downloadFile : String → Except String String)
    (extract_pdf_text : String → Except String String)
    (embed_documents : List String → Except String (List (List ℚ)))
    (upsertCall : List BatchItem → Except String Unit)
    (osRemove : String → Except String Unit)
    (fileId fileUrl originalName : String) : Prop :=
  ∃ path text chunks vectors batch e,
    downloadFile fileUrl = Except.ok path
    ∧ extract_pdf_text path = Except.ok text
    ∧ pyStrip text ≠ ""
    ∧ chunk_text text CHUNK_SIZE CHUNK_OVERLAP = some chunks
    ∧ embed_documents chunks = Except.ok vectors
    ∧ buildBatch fileId originalName chunks vectors = Except.ok batch
    ∧ upsertBatches upsertCall batch = Except.ok ()
    ∧ osRemove path = Except.error e

/-- C6 (amended): for every ingest attempt, the outcome notification —
success with chunk count, or failure with a message — is invoked exactly once
on every path except one: precisely when every step through the upsert
succeeds and deleting the downloaded temporary file then fails (after the
success notification has been sent), the catch-all sends a second, "failed"
notification, so exactly two notifications go out on that path and exactly
one on every other path. -/
theorem process_ingest_notify_count (downloadFile : String → Except String String)
    (extract_pdf_text : String → Except String String)
    (embed_documents : List String → Except String (List (List ℚ)))
    (upsertCall : List BatchItem → Except String Unit)
    (osRemove : String → Except String Unit)
    (fileId fileUrl originalName : String) :
    (cleanupFailsAfterIndexed downloadFile extract_pdf_text embed_documents upsertCall osRemove
        fileId fileUrl originalName →
      (process_ingest downloadFile extract_pdf_text embed_documents upsertCall osRemove
          fileId fileUrl originalName).2.length = 2)
    ∧ (¬ cleanupFailsAfterIndexed downloadFile extract_pdf_text embed_documents upsertCall
          osRemove fileId fileUrl originalName →
      (process_ingest downloadFile extract_pdf_text embed_documents upsertCall osRemove
          fileId fileUrl originalName).2.length = 1) := by
  cases hdl : downloadFile fileUrl with
  | error e =>
    refine ⟨fun hc => absurd hc ?_, fun _ => by simp [process_ingest, hdl]⟩
    rintro ⟨path', text', chunks', vectors', batch', e', h1, -⟩
    rw [hdl] at h1
    exact Except.noConfusion h1
  | ok path =>
    cases hex : extract_pdf_text path with
    | error e =>
      refine ⟨fun hc => absurd hc ?_, fun _ => by simp [process_ingest, hdl, hex]⟩
      rintro ⟨path', text', chunks', vectors', batch', e', h1, h2, -⟩
      rw [hdl] at h1
      obtain rfl := Except.ok.inj h1
      rw [hex] at h2
      exact Except.noConfusion h2
    | ok text =>
      by_cases htr : pyStrip text = ""
      · refine ⟨fun hc => absurd hc ?_, fun _ => by simp [process_ingest, hdl, hex, htr]⟩
        rintro ⟨path', text', chunks', vectors', batch', e', h1, h2, h3, -⟩
        rw [hdl] at h1
        obtain rfl := Except.ok.inj h1
        rw [hex] at h2
        obtain rfl := Except.ok.inj h2
        exact h3 htr
      · obtain ⟨chunks, hch⟩ := chunk_text_config_total text
        cases hem : embed_documents chunks with
        | error e =>
          refine ⟨fun hc => absurd hc ?_,
            fun _ => by simp [process_ingest, hdl, hex, htr, hch, hem]⟩
          rintro ⟨path', text', chunks', vectors', batch', e', h1, h2, h3, h4, h5, -⟩
          rw [hdl] at h1
          obtain rfl := Except.ok.inj h1
          rw [hex] at h2
          obtain rfl := Except.ok.inj h2
          rw [hch] at h4
          obtain rfl := Option.some.inj h4
          rw [hem] at h5
          exact Except.noConfusion h5
        | ok vectors =>
          cases hbb : buildBatch fileId originalName chunks vectors with
          | error e =>
            refine ⟨fun hc => absurd hc ?_,
              fun _ => by simp [process_ingest, hdl, hex, htr, hch, hem, hbb]⟩
            rintro ⟨path', text', chunks', vectors', batch', e', h1, h2, h3, h4, h5, h6, -⟩
            rw [hdl] at h1
            obtain rfl := Except.ok.inj h1
            rw [hex] at h2
            obtain rfl := Except.ok.inj h2
            rw [hch] at h4
            obtain rfl := Option.some.inj h4
            rw [hem] at h5
            obtain rfl := Except.ok.inj h5
            rw [hbb] at h6
            exact Except.noConfusion h6
          | ok batch =>
            cases hup : upsertBatches upsertCall batch with
            | error e =>
              refine ⟨fun hc => absurd hc ?_,
                fun _ => by simp [process_ingest, hdl, hex, htr, hch, hem, hbb, hup]⟩
              rintro ⟨path', text', chunks', vectors', batch', e', h1, h2, h3, h4, h5, h6, h7, -⟩
              rw [hdl] at h1
              obtain rfl := Except.ok.inj h1
              rw [hex] at h2
              obtain rfl := Except.ok.inj h2
              rw [hch] at h4
              obtain rfl := Option.some.inj h4
              rw [hem] at h5
              obtain rfl := Except.ok.inj h5
              rw [hbb] at h6
              obtain rfl := Except.ok.inj h6
              rw [hup] at h7
              exact Except.noConfusion h7
            | ok u =>
              cases u
              cases hrm : osRemove path with
              | error e =>
                  exact ⟨fun _ => by simp [process_ingest, hdl, hex, htr, hch, hem, hbb, hup, hrm],
                    fun hnc => absurd
                      ⟨path, text, chunks, vectors, batch, e,
                        hdl, hex, htr, hch, hem, hbb, hup, hrm⟩ hnc⟩
              | ok v =>
                  refine ⟨fun hc => absurd hc ?_,
                    fun _ => by simp [process_ingest, hdl, hex, htr, hch, hem, hbb, hup, hrm]⟩
                  rintro ⟨path', text', chunks', vectors', batch', e', h1, h2, h3, h4, h5, h6, h7, h8⟩
                  rw [hdl] at h1
                  obtain rfl := Except.ok.inj h1
                  rw [hrm] at h8
                  exact Except.noConfusion h8

/-- C6 counterexample: every pipeline step succeeds but removing the
temporary file fails — the collaborator is notified twice ("indexed", then
"failed"), refuting "never more than once". -/
theorem process_ingest_double_notify_cex :
    (process_ingest (fun _ => Except.ok "/tmp/x.pdf") (fun _ => Except.ok "hello world")
        (fun cs => Except.ok (cs.map (fun _ => ([] : List ℚ)))) (fun _ => Except.ok ())
        (fun _ => Except.error "Permission denied") "f1" "url" "doc.pdf").2
      = [notify_node_update "f1" "indexed" (some "1") none,
         notify_node_update "f1" "failed" (some "Permission denied") none]
    ∧ ¬ ((2 : Nat) = 1) := by decide

/-- C8: neither operation lets an internal exception escape.  `process_ingest`
always returns a structured result — `ok: true` with a chunk count, or
`ok: false` with a reason — and `process_answer` converts a raised search
failure `e` into the structured `{answer, error, sources}` payload, with no
error field on the success path. -/
theorem pipeline_no_exception_escape :
    (∀ (downloadFile extract_pdf_text : String → Except String String)
        (embed_documents : List String → Except String (List (List ℚ)))
        (upsertCall : List BatchItem → Except String Unit)
        (osRemove : String → Except String Unit)
        (fileId fileUrl originalName : String),
        ((process_ingest downloadFile extract_pdf_text embed_documents upsertCall osRemove
            fileId fileUrl originalName).1.ok = true
          ∧ (process_ingest downloadFile extract_pdf_text embed_documents upsertCall osRemove
              fileId fileUrl originalName).1.indexed_chunks.isSome = true
          ∧ (process_ingest downloadFile extract_pdf_text embed_documents upsertCall osRemove
              fileId fileUrl originalName).1.reason = none)
        ∨ ((process_ingest downloadFile extract_pdf_text embed_documents upsertCall osRemove
              fileId fileUrl originalName).1.ok = false
            ∧ (process_ingest downloadFile extract_pdf_text embed_documents upsertCall osRemove
                fileId fileUrl originalName).1.reason.isSome = true))
    ∧ (∀ (search : Except String (List Match)) (llm : String → Except String String)
        (query : String),
        (∀ e, search = Except.error e →
          process_answer search llm query
            = { answer := "An error occurred while processing your question: " ++ e,
                sources := [], chunks_used := none, error := some e })
        ∧ (∀ ms2, search = Except.ok ms2 → (process_answer search llm query).error = none)) := by
  constructor
  · intro downloadFile extract_pdf_text embed_documents upsertCall osRemove fileId fileUrl
      originalName
    exact (process_ingest_branches downloadFile extract_pdf_text embed_documents upsertCall
      osRemove fileId fileUrl originalName).2
  · intro search llm query
    constructor
    · intro e he
      subst he
      rfl
    · intro ms2 hs
      subst hs
      simp only [process_answer]
      split
      · rfl
      · split
        · rfl
        · rfl

end DocuMind
